import Mathlib

/-!
Shallow embedding of the Nanopond-CH simulation engine (src/nanopond-ch.c)
and verification of claims about its specification.

Modelling conventions:
* C `uintptr_t` values are embedded as `Nat`; wherever C arithmetic can wrap
  (unsigned subtraction, the SHARE energy addition) the wrap is made explicit
  with `% UINTPTR_MOD` where `UINTPTR_MOD = 2^64` (the source targets 64-bit).
* Low-bit masks `& 0x1f`, `& 0xff`, `& 0xf`, `& 0x7`, `& 0xffffffff` are
  written `% 32`, `% 256`, `% 16`, `% 8`, `% 4294967296`; single-bit tests
  `& 0x20000`, `& 0x10000`, `& 0x8` are written with `Nat.testBit`.
* The PRNG is abstracted as a stream `seq : Nat → Nat` with a cursor `idx`:
  one `getRandom` call (the source's machine-word draw) consumes one cursor
  position.  The MT19937 internals are not needed by any claim.
* Arrays are `List Nat`; every array access the C code performs is
  bounds-checked through `getQ` / `setQ`, which return `none` on an index
  that would be out of bounds in C (where it would be undefined behavior).
* The per-report floating point statistics (`instructionExecutions`,
  `cellExecutions`) are doubles in the source and are omitted from the model;
  the integer statistics counters are all modelled.
* The compile-time configuration is that of the source: DIRECTIONS = 6,
  POND_DEPTH = 512, MUTATION_RATE = 100000, FAILED_KILL_PENALTY = 3,
  COMBINE_SENSE = 0, EXEC_START_INST = 0, CLEAR_RAM = 0.  The grid
  dimensions POND_SIZE_X/POND_SIZE_Y appear as parameters `sx`, `sy`
  (the spec allows them to be configured; the neighbor macros use them
  symbolically).
-/

namespace Nanopond

/-- POND_DEPTH: depth of a genome in 5-bit codons (source line 301). -/
def POND_DEPTH : Nat := 512

/-- EXEC_START_INST: instruction at which execution starts (source line 567). -/
def EXEC_START_INST : Nat := 0

/-- MUTATION_RATE out of 2^32 (source line 272). -/
def MUTATION_RATE : Nat := 100000

/-- FAILED_KILL_PENALTY divisor (source line 295). -/
def FAILED_KILL_PENALTY : Nat := 3

/-- REPRODUCTION_COST (source line 297). -/
def REPRODUCTION_COST : Nat := 20

/-- RAM_SIZE: allocated RAM bytes per cell (source line 510). -/
def RAM_SIZE : Nat := 16

/-- MEM_SIZE: mapped memory window size (source line 515). -/
def MEM_SIZE : Nat := 32

/-- COMBINE_SENSE: sense used by the TURN gene-combination test (source line 564). -/
def COMBINE_SENSE : Nat := 0

/-- OP_STOP: opcode 0 (source enum, line 446). -/
def OP_STOP : Nat := 0

/-- The modulus of `uintptr_t` on the 64-bit target: 2^64. -/
def UINTPTR_MOD : Nat := 18446744073709551616

/-- BITS_IN_FIVEBIT_WORD: population count of the 5-bit values 0..31
(source line 571). -/
def BITS_IN_FIVEBIT_WORD : List Nat :=
  [0, 1, 1, 2, 1, 2, 2, 3, 1, 2, 2, 3, 2, 3, 3, 4,
   1, 2, 2, 3, 2, 3, 3, 4, 2, 3, 3, 4, 3, 4, 4, 5]

/-- dirmap: the 32-entry table collapsing a 5-bit direction code to one of the
six hex directions, with a mild non-uniform bias (source lines 540-546). -/
def dirmap : List Nat :=
  [0, 1, 2, 3, 4, 5,
   0, 1, 2, 3, 3, 4, 5,
   0, 1, 2, 3, 4, 5,
   0, 1, 2, 2, 3, 4, 5,
   0, 1, 2, 3, 4, 5]

/-- The entropy source: an abstract stream of machine words with a cursor.
One `getRandom` call of the source consumes one cursor position. -/
structure Rng where
  seq : Nat → Nat
  idx : Nat

/-- getRandom (source lines 629-636): return the word at the cursor and
advance the cursor by one. -/
def getRandom (r : Rng) : Nat × Rng := (r.seq r.idx, ⟨r.seq, r.idx + 1⟩)

/-- The state of `r` after one `getRandom` draw. -/
def rngBump (r : Rng) : Rng := ⟨r.seq, r.idx + 1⟩

/-- struct Cell (source lines 576-603). -/
structure Cell where
  ID : Nat
  parentID : Nat
  lineage : Nat
  generation : Nat
  energy : Nat
  logo : Nat
  facing : Nat
  genome : List Nat
  ram : List Nat

/-- The pond, indexed by grid coordinates (source line 606). -/
def Pond : Type := Nat → Nat → Cell

/-- Write the cell at position (x, y) of the pond. -/
def updPond (p : Pond) (x y : Nat) (c : Cell) : Pond :=
  fun a b => if a = x ∧ b = y then c else p a b

/-- Bounds-checked array read: `none` models an access that would be out of
bounds (undefined behavior) in the C source. -/
def getQ (l : List Nat) (i : Nat) : Option Nat :=
  if i < l.length then some (l.getD i 0) else none

/-- Bounds-checked array write; `none` models an out-of-bounds store. -/
def setQ (l : List Nat) (i : Nat) (v : Nat) : Option (List Nat) :=
  if i < l.length then some (l.set i v) else none

/-- X_EAST macro (source line 863): wrap x+1 at the east edge. -/
def xEast (sx x : Nat) : Nat := if x < sx - 1 then x + 1 else 0

/-- X_WEST macro (source line 864): wrap x-1 at the west edge. -/
def xWest (sx x : Nat) : Nat := if x ≠ 0 then x - 1 else sx - 1

/-- Y_SOUTH macro (source line 866): wrap y+1 at the south edge. -/
def ySouth (sy y : Nat) : Nat := if y < sy - 1 then y + 1 else 0

/-- Y_NORTH macro (source line 867): wrap y-1 at the north edge. -/
def yNorth (sy y : Nat) : Nat := if y ≠ 0 then y - 1 else sy - 1

/-- getNeighbor for the DIRECTIONS = 6 topology (source lines 869-938):
the direction code indexes `dirmap`; odd and even rows use different offset
tables.  Returns the neighbor's coordinates; `none` iff the `dirmap[dir]`
access would be out of bounds. -/
def getNeighbor (sx sy x y dir : Nat) : Option (Nat × Nat) :=
  match getQ dirmap dir with
  | none => none
  | some d =>
    if y % 2 = 1 then
      some (match d with
        | 0 => (xEast sx x, yNorth sy y)
        | 1 => (xEast sx x, y)
        | 2 => (xEast sx x, ySouth sy y)
        | 3 => (x, ySouth sy y)
        | 4 => (xWest sx x, y)
        | 5 => (x, yNorth sy y)
        | _ => (x, y))
    else
      some (match d with
        | 0 => (x, yNorth sy y)
        | 1 => (xEast sx x, y)
        | 2 => (x, ySouth sy y)
        | 3 => (xWest sx x, ySouth sy y)
        | 4 => (xWest sx x, y)
        | 5 => (xWest sx x, yNorth sy y)
        | _ => (x, y))

/-- accessAllowed (source lines 954-962): stochastic permission test.
The `getRandom` draw is on the left of the short-circuit `||`, so it is
consumed on every call, regardless of sense or outcome. -/
def accessAllowed (c2 : Cell) (c1guess sense : Nat) (r : Rng) : Bool × Rng :=
  let (w, r') := getRandom r
  if sense ≠ 0 then
    ((decide (w % 16 ≥ BITS_IN_FIVEBIT_WORD.getD ((c2.logo ^^^ c1guess) % 32) 0)
      || decide (c2.parentID = 0)), r')
  else
    ((decide (w % 16 ≤ BITS_IN_FIVEBIT_WORD.getD ((c2.logo ^^^ c1guess) % 32) 0)
      || decide (c2.parentID = 0)), r')

/-- The integer statistics counters of struct PerReportStatCounters
(source lines 641-671); the floating-point execution-frequency fields are
not modelled. -/
structure Counters where
  viableCellsReplaced : Nat
  viableCellsKilled : Nat
  viableCellShares : Nat
  memSpecialReads : Nat
  memPrivateReads : Nat
  memOutputReads : Nat
  memInputReads : Nat
  memSpecialWrites : Nat
  memPrivateWrites : Nat
  memOutputWrites : Nat
  memInputWrites : Nat
deriving DecidableEq

/-- statCounters.memSpecialReads++ -/
def bumpSR (sc : Counters) : Counters :=
  { sc with memSpecialReads := sc.memSpecialReads + 1 }

/-- statCounters.memPrivateReads++ -/
def bumpPR (sc : Counters) : Counters :=
  { sc with memPrivateReads := sc.memPrivateReads + 1 }

/-- statCounters.memOutputReads++ -/
def bumpOR (sc : Counters) : Counters :=
  { sc with memOutputReads := sc.memOutputReads + 1 }

/-- statCounters.memInputReads++ -/
def bumpIR (sc : Counters) : Counters :=
  { sc with memInputReads := sc.memInputReads + 1 }

/-- statCounters.memSpecialWrites++ -/
def bumpSW (sc : Counters) : Counters :=
  { sc with memSpecialWrites := sc.memSpecialWrites + 1 }

/-- statCounters.memPrivateWrites++ -/
def bumpPW (sc : Counters) : Counters :=
  { sc with memPrivateWrites := sc.memPrivateWrites + 1 }

/-- statCounters.memOutputWrites++ -/
def bumpOW (sc : Counters) : Counters :=
  { sc with memOutputWrites := sc.memOutputWrites + 1 }

/-- statCounters.memInputWrites++ -/
def bumpIW (sc : Counters) : Counters :=
  { sc with memInputWrites := sc.memInputWrites + 1 }

/-- read_mem (source lines 1066-1132).  The grouped `case` ranges of the C
switch are rendered as range tests.  The C function returns `uint8_t`, hence
the `% 256` on every produced value.  Note that the read-only slots
0x03..0x07 return without touching any statistics counter. -/
def read_mem (sx sy : Nat) (pond : Pond) (x y ptr_mem : Nat) (sc : Counters) :
    Option (Nat × Counters) :=
  let c := pond x y
  if ptr_mem = 0x00 then some (c.logo % 256, bumpSR sc)
  else if ptr_mem = 0x01 then some (c.facing % 256, bumpSR sc)
  else if ptr_mem = 0x02 then
    some ((if c.energy = 0 then 0
           else if c.energy > 126975 then 31
           else 1 + c.energy / 4096) % 256, bumpSR sc)
  else if ptr_mem = 0x03 then some (c.lineage % 256, sc)
  else if ptr_mem = 0x04 then some (c.ID % 256, sc)
  else if ptr_mem = 0x05 then some (c.parentID % 256, sc)
  else if ptr_mem = 0x06 then some (c.generation / 256 % 256, sc)
  else if ptr_mem = 0x07 then some (c.generation % 256, sc)
  else if ptr_mem ≤ 0x0f then
    (getQ c.ram (ptr_mem % 8)).map (fun v => (v % 256, bumpPR sc))
  else if ptr_mem ≤ 0x17 then
    (getQ c.ram (8 + ptr_mem % 8)).map (fun v => (v % 256, bumpOR sc))
  else if ptr_mem ≤ 0x1f then
    match getNeighbor sx sy x y c.facing with
    | none => none
    | some (nx, ny) =>
      (getQ (pond nx ny).ram (8 + ptr_mem % 8)).map (fun v => (v % 256, bumpIR sc))
  else some (0, sc)

/-- write_mem (source lines 1134-1197).  Writes to the read-only slots
0x02..0x07 are ignored but still increment memSpecialWrites; writes to the
neighbor band 0x18..0x1f increment memInputWrites first and then apply only
when the sense-1 access test passes. -/
def write_mem (sx sy : Nat) (pond : Pond) (x y ptr_mem value : Nat)
    (sc : Counters) (r : Rng) : Option (Pond × Counters × Rng) :=
  let c := pond x y
  if ptr_mem = 0x00 then
    some (updPond pond x y { c with logo := value % 32 }, bumpSW sc, r)
  else if ptr_mem = 0x01 then
    some (updPond pond x y { c with facing := value % 32 }, bumpSW sc, r)
  else if ptr_mem ≤ 0x07 then
    some (pond, bumpSW sc, r)
  else if ptr_mem ≤ 0x0f then
    (setQ c.ram (ptr_mem % 8) (value % 256)).map
      (fun ram' => (updPond pond x y { c with ram := ram' }, bumpPW sc, r))
  else if ptr_mem ≤ 0x17 then
    (setQ c.ram (8 + ptr_mem % 8) (value % 256)).map
      (fun ram' => (updPond pond x y { c with ram := ram' }, bumpOW sc, r))
  else if ptr_mem ≤ 0x1f then
    match getNeighbor sx sy x y c.facing with
    | none => none
    | some (nx, ny) =>
      let n := pond nx ny
      let a := accessAllowed n c.logo 1 r
      if a.1 then
        (setQ n.ram (8 + ptr_mem % 8) (value % 256)).map
          (fun ram' => (updPond pond nx ny { n with ram := ram' }, bumpIW sc, a.2))
      else some (pond, bumpIW sc, a.2)
  else some (pond, sc, r)

/-- The per-execution VM state (source lines 1266-1292): instruction pointer,
register, I/O pointer, memory pointer, loop stack with its pointer, false-loop
depth, stop flag, and the candidate-offspring output buffer. -/
structure VMState where
  instPtr : Nat
  reg : Nat
  ptr_ioPtr : Nat
  ptr_mem : Nat
  loopStack : List Nat
  loopStackPtr : Nat
  falseLoopDepth : Nat
  stop : Bool
  outputBuf : List Nat
deriving DecidableEq

/-- The process-wide mutable state outside the pond: the PRNG, the unique-id
counter (source line 1263) and the statistics counters. -/
structure Globals where
  rng : Rng
  cellIdCounter : Nat
  stats : Counters

/-- Advance the instruction pointer, wrapping to EXEC_START_INST at
POND_DEPTH (source lines 1687-1689). -/
def advanceIp (p : Nat) : Nat :=
  if p + 1 ≥ POND_DEPTH then EXEC_START_INST else p + 1

/-- The field resets a permitted KILL performs on the target (source lines
1651-1660): all genome codons to OP_STOP, fresh ID and lineage from the
cellIdCounter, parentID/generation/logo/facing zeroed.  The target's energy
and RAM are not touched. -/
def killReset (n : Cell) (idc : Nat) : Cell :=
  { n with genome := List.replicate POND_DEPTH OP_STOP,
           ID := idc, parentID := 0, lineage := idc,
           generation := 0, logo := 0, facing := 0 }

/-- One dispatch of the big instruction switch (source lines 1509-1683),
factored out of the loop body.  The returned Bool is true exactly when the C
code executes `continue` (the REP back-jump), which skips the
instruction-pointer advance at the bottom of the loop.  The floating-point
instructionExecutions tally is omitted (see the module comment). -/
def execInst (sx sy : Nat) (inst : Nat) (pond : Pond) (x y : Nat)
    (vm : VMState) (g : Globals) : Option (Pond × VMState × Globals × Bool) :=
  let pptr := pond x y
  if inst = 16 then /- OP_SETP -/
    some (pond, { vm with ptr_ioPtr := vm.reg }, g, false)
  else if inst = 17 then /- OP_NEXTB -/
    some (pond, { vm with ptr_mem := (vm.ptr_mem + 8) % 32 }, g, false)
  else if inst = 18 then /- OP_PREVB: (ptr_mem - 8) & MEM_MASK, unsigned -/
    some (pond, { vm with ptr_mem := (UINTPTR_MOD + vm.ptr_mem - 8) % UINTPTR_MOD % 32 }, g, false)
  else if inst = 19 then /- OP_NEXTM -/
    some (pond, { vm with ptr_mem := (vm.ptr_mem + 1) % 32 }, g, false)
  else if inst = 20 then /- OP_PREVM -/
    some (pond, { vm with ptr_mem := (UINTPTR_MOD + vm.ptr_mem - 1) % UINTPTR_MOD % 32 }, g, false)
  else if inst = 21 then /- OP_READM -/
    match read_mem sx sy pond x y vm.ptr_mem g.stats with
    | none => none
    | some (v, sc') => some (pond, { vm with reg := v }, { g with stats := sc' }, false)
  else if inst = 22 then /- OP_WRITEM -/
    match write_mem sx sy pond x y vm.ptr_mem vm.reg g.stats g.rng with
    | none => none
    | some (pond', sc', r') =>
      some (pond', vm, { g with stats := sc', rng := r' }, false)
  else if inst = 23 then /- OP_CLEARM -/
    some (updPond pond x y { pptr with ram := List.replicate RAM_SIZE 0 }, vm, g, false)
  else if inst = 24 then /- OP_ADD -/
    match read_mem sx sy pond x y vm.ptr_mem g.stats with
    | none => none
    | some (v, sc') =>
      some (pond, { vm with reg := (vm.reg + v) % UINTPTR_MOD % 256 },
            { g with stats := sc' }, false)
  else if inst = 25 then /- OP_SUB: (reg - M) & REG_MASK, unsigned -/
    match read_mem sx sy pond x y vm.ptr_mem g.stats with
    | none => none
    | some (v, sc') =>
      some (pond, { vm with reg := (UINTPTR_MOD + vm.reg - v) % UINTPTR_MOD % 256 },
            { g with stats := sc' }, false)
  else if inst = 26 then /- OP_MUL -/
    match read_mem sx sy pond x y vm.ptr_mem g.stats with
    | none => none
    | some (v, sc') =>
      some (pond, { vm with reg := vm.reg * v % UINTPTR_MOD % 256 },
            { g with stats := sc' }, false)
  else if inst = 27 then /- OP_DIV: reads M twice when the first read is nonzero -/
    match read_mem sx sy pond x y vm.ptr_mem g.stats with
    | none => none
    | some (t, sc1) =>
      if t ≠ 0 then
        match read_mem sx sy pond x y vm.ptr_mem sc1 with
        | none => none
        | some (t2, sc2) =>
          some (pond, { vm with reg := vm.reg / t2 % 256 }, { g with stats := sc2 }, false)
      else some (pond, { vm with reg := 0 }, { g with stats := sc1 }, false)
  else if inst = 28 then /- OP_SHL -/
    some (pond, { vm with reg := vm.reg * 2 % UINTPTR_MOD % 256 }, g, false)
  else if inst = 29 then /- OP_SHR -/
    some (pond, { vm with reg := vm.reg / 2 % 256 }, g, false)
  else if inst = 30 then /- OP_SETMP -/
    some (pond, { vm with ptr_mem := vm.reg % 32 }, g, false)
  else if inst = 31 then /- OP_RAND -/
    let (w, r') := getRandom g.rng
    some (pond, { vm with reg := w % 256 }, { g with rng := r' }, false)
  else if inst = 15 then /- OP_ZERO -/
    some (pond, { vm with reg := 0 }, g, false)
  else if inst = 1 then /- OP_FWD -/
    some (pond, { vm with ptr_ioPtr := if vm.ptr_ioPtr + 1 ≥ POND_DEPTH then 0 else vm.ptr_ioPtr + 1 },
          g, false)
  else if inst = 2 then /- OP_BACK -/
    some (pond, { vm with ptr_ioPtr := if vm.ptr_ioPtr ≠ 0 then vm.ptr_ioPtr - 1 else POND_DEPTH - 1 },
          g, false)
  else if inst = 3 then /- OP_INC -/
    some (pond, { vm with reg := (vm.reg + 1) % 256 }, g, false)
  else if inst = 4 then /- OP_DEC: (reg - 1) & REG_MASK, unsigned -/
    some (pond, { vm with reg := (UINTPTR_MOD + vm.reg - 1) % UINTPTR_MOD % 256 }, g, false)
  else if inst = 5 then /- OP_READG -/
    match getQ pptr.genome vm.ptr_ioPtr with
    | none => none
    | some v => some (pond, { vm with reg := v }, g, false)
  else if inst = 6 then /- OP_WRITEG -/
    match setQ pptr.genome vm.ptr_ioPtr (vm.reg % 32) with
    | none => none
    | some gen' => some (updPond pond x y { pptr with genome := gen' }, vm, g, false)
  else if inst = 7 then /- OP_READO -/
    match getQ vm.outputBuf vm.ptr_ioPtr with
    | none => none
    | some v => some (pond, { vm with reg := v }, g, false)
  else if inst = 8 then /- OP_WRITEO -/
    match setQ vm.outputBuf vm.ptr_ioPtr (vm.reg % 32) with
    | none => none
    | some out' => some (pond, { vm with outputBuf := out' }, g, false)
  else if inst = 9 then /- OP_LOOP -/
    if vm.reg ≠ 0 then
      if vm.loopStackPtr ≥ POND_DEPTH then
        some (pond, { vm with stop := true }, g, false)
      else
        match setQ vm.loopStack vm.loopStackPtr vm.instPtr with
        | none => none
        | some ls =>
          some (pond, { vm with loopStack := ls, loopStackPtr := vm.loopStackPtr + 1 }, g, false)
    else some (pond, { vm with falseLoopDepth := 1 }, g, false)
  else if inst = 10 then /- OP_REP -/
    if vm.loopStackPtr ≠ 0 then
      if vm.reg ≠ 0 then
        match getQ vm.loopStack (vm.loopStackPtr - 1) with
        | none => none
        | some top =>
          some (pond, { vm with loopStackPtr := vm.loopStackPtr - 1, instPtr := top }, g, true)
      else some (pond, { vm with loopStackPtr := vm.loopStackPtr - 1 }, g, false)
    else some (pond, vm, g, false)
  else if inst = 11 then /- OP_TURN: reads one codon from self or neighbor -/
    if pptr.generation > 2 then
      match getNeighbor sx sy x y pptr.facing with
      | none => none
      | some (nx, ny) =>
        let n := pond nx ny
        if n.generation > 2 then
          let a := accessAllowed n vm.reg COMBINE_SENSE g.rng
          if a.1 then
            let (w, r2) := getRandom a.2
            match getQ (if Nat.testBit w 3 then pptr.genome else n.genome) vm.ptr_ioPtr with
            | none => none
            | some v => some (pond, { vm with reg := v }, { g with rng := r2 }, false)
          else
            match getQ pptr.genome vm.ptr_ioPtr with
            | none => none
            | some v => some (pond, { vm with reg := v }, { g with rng := a.2 }, false)
        else
          match getQ pptr.genome vm.ptr_ioPtr with
          | none => none
          | some v => some (pond, { vm with reg := v }, g, false)
    else
      match getQ pptr.genome vm.ptr_ioPtr with
      | none => none
      | some v => some (pond, { vm with reg := v }, g, false)
  else if inst = 12 then /- OP_XCHG: advance ip, swap reg with that codon -/
    let ip' := if vm.instPtr + 1 ≥ POND_DEPTH then EXEC_START_INST else vm.instPtr + 1
    match getQ pptr.genome ip' with
    | none => none
    | some v =>
      match setQ pptr.genome ip' (vm.reg % 32) with
      | none => none
      | some gen' =>
        some (updPond pond x y { pptr with genome := gen' },
              { vm with instPtr := ip', reg := v }, g, false)
  else if inst = 13 then /- OP_KILL -/
    match getNeighbor sx sy x y pptr.facing with
    | none => none
    | some (nx, ny) =>
      let n := pond nx ny
      let a := accessAllowed n vm.reg 0 g.rng
      if a.1 then
        let sc := if n.generation > 2 then
            { g.stats with viableCellsKilled := g.stats.viableCellsKilled + 1 }
          else g.stats
        some (updPond pond nx ny (killReset n g.cellIdCounter),
              vm, ⟨a.2, g.cellIdCounter + 1, sc⟩, false)
      else if n.generation > 2 then
        let tmp := pptr.energy / FAILED_KILL_PENALTY
        some (updPond pond x y
                { pptr with energy := if pptr.energy > tmp then pptr.energy - tmp else 0 },
              vm, { g with rng := a.2 }, false)
      else some (pond, vm, { g with rng := a.2 }, false)
  else if inst = 14 then /- OP_SHARE -/
    match getNeighbor sx sy x y pptr.facing with
    | none => none
    | some (nx, ny) =>
      let n := pond nx ny
      let a := accessAllowed n vm.reg 1 g.rng
      if a.1 then
        let sc := if n.generation > 2 then
            { g.stats with viableCellShares := g.stats.viableCellShares + 1 }
          else g.stats
        let tmp := (pptr.energy + n.energy) % UINTPTR_MOD
        let pond1 := updPond pond nx ny { n with energy := tmp / 2 }
        let pond2 := updPond pond1 x y
            { pond1 x y with energy := tmp - (pond1 nx ny).energy }
        some (pond2, vm, { g with rng := a.2, stats := sc }, false)
      else some (pond, vm, { g with rng := a.2 }, false)
  else if inst = 0 then /- OP_STOP -/
    some (pond, { vm with stop := true }, g, false)
  else
    some (pond, vm, g, false)

/-- The tail of one core-loop iteration after fetch and mutation injection
(source lines 1493-1690): the one-unit energy debit, then either false-loop
skipping or normal dispatch, then the instruction-pointer advance (skipped
when REP executed `continue`). -/
def execTail (sx sy : Nat) (pond1 : Pond) (x y inst : Nat) (vm1 : VMState)
    (g1 : Globals) : Option (Pond × VMState × Globals) :=
  let pond2 := updPond pond1 x y { pond1 x y with energy := (pond1 x y).energy - 1 }
  if vm1.falseLoopDepth ≠ 0 then
    let fld := if inst = 9 then vm1.falseLoopDepth + 1
               else if inst = 10 then vm1.falseLoopDepth - 1
               else vm1.falseLoopDepth
    some (pond2, { vm1 with falseLoopDepth := fld, instPtr := advanceIp vm1.instPtr }, g1)
  else
    match execInst sx sy inst pond2 x y vm1 g1 with
    | none => none
    | some (pond3, vm3, g3, cont) =>
      if cont then some (pond3, vm3, g3)
      else some (pond3, { vm3 with instPtr := advanceIp vm3.instPtr }, g3)

/-- One iteration of the core execution loop (source lines 1469-1690),
entered under the loop guard `pptr->energy && !stop`: fetch, stochastic
mutation injection, then `execTail`. -/
def execStep (sx sy : Nat) (pond : Pond) (x y : Nat) (vm : VMState) (g : Globals) :
    Option (Pond × VMState × Globals) :=
  match getQ (pond x y).genome vm.instPtr with
  | none => none
  | some inst0 =>
    let (w, r1) := getRandom g.rng
    let mutated : Option (Nat × VMState × Pond × Globals) :=
      if w % 4294967296 < MUTATION_RATE then
        let (tmp, r2) := getRandom r1
        if Nat.testBit tmp 17 then
          if Nat.testBit tmp 16 then
            some (tmp % 32, vm, pond, { g with rng := r2 })
          else
            some (inst0, { vm with reg := tmp % 256 }, pond, { g with rng := r2 })
        else
          if Nat.testBit tmp 16 then
            some (inst0, { vm with ptr_mem := tmp % 32 }, pond, { g with rng := r2 })
          else
            (setQ (pond x y).ram (tmp / 256 % 16) (tmp % 256)).map
              (fun ram1 =>
                (inst0, vm, updPond pond x y { pond x y with ram := ram1 },
                 { g with rng := r2 }))
      else some (inst0, vm, pond, { g with rng := r1 })
    match mutated with
    | none => none
    | some (inst, vm1, pond1, g1) => execTail sx sy pond1 x y inst vm1 g1

/-- The three id-assignment events of the run, as (assigned id, new counter)
as a function of the current cellIdCounter:
seeding assigns the counter and then increments it (source lines 1405, 1440);
a permitted KILL assigns the counter and then increments it (source lines
1655, 1661); a successful birth assigns `++cellIdCounter`, i.e. it increments
first and assigns the incremented value (source line 1717). -/
inductive IdEvent where
  | seed : IdEvent
  | kill : IdEvent
  | birth : IdEvent
deriving DecidableEq

/-- The id assigned by one event and the cellIdCounter value it leaves. -/
def idAssign : IdEvent → Nat → Nat × Nat
  | IdEvent.seed, c => (c, c + 1)
  | IdEvent.kill, c => (c, c + 1)
  | IdEvent.birth, c => (c + 1, c + 1)

/-- The sequence of ids handed out by a sequence of assignment events,
starting from a given cellIdCounter value (0 at startup, source line 1263). -/
def runIds : List IdEvent → Nat → List Nat
  | [], _ => []
  | e :: es, c => (idAssign e c).1 :: runIds es (idAssign e c).2

/-- Well-formedness of a cell record as maintained by the source: genome of
POND_DEPTH codons, RAM_SIZE bytes of RAM, facing masked to 5 bits. -/
def CellWF (c : Cell) : Prop :=
  c.genome.length = POND_DEPTH ∧ c.ram.length = RAM_SIZE ∧ c.facing < 32

/-- Every cell of the pond is well-formed. -/
def PondWF (pond : Pond) : Prop := ∀ a b, CellWF (pond a b)

/-- The spec's formula for the compressed energy byte at memory address 0x02
(spec section 4.4): 0 for a dormant cell, otherwise `min(31, 1 + (energy >> 12))`. -/
def specCompressedEnergy (e : Nat) : Nat :=
  if e = 0 then 0 else min 31 (1 + e / 4096)

/-- The single statistics counter a read of memory-window address `ptr`
increments (none for the read-only slots 0x03..0x07), per the bands of
`read_mem`. -/
def readBump (ptr : Nat) (sc : Counters) : Counters :=
  if ptr ≤ 0x02 then bumpSR sc
  else if ptr ≤ 0x07 then sc
  else if ptr ≤ 0x0f then bumpPR sc
  else if ptr ≤ 0x17 then bumpOR sc
  else bumpIR sc

/-- The single statistics counter a write of memory-window address `ptr`
increments, per the bands of `write_mem`. -/
def writeBump (ptr : Nat) (sc : Counters) : Counters :=
  if ptr ≤ 0x07 then bumpSW sc
  else if ptr ≤ 0x0f then bumpPW sc
  else if ptr ≤ 0x17 then bumpOW sc
  else bumpIW sc

/-- A well-formed cell fixture with lineage 7, used by concrete instances. -/
def cellW : Cell :=
  ⟨0, 0, 7, 0, 0, 0, 0, List.replicate POND_DEPTH 0, List.replicate RAM_SIZE 0⟩

/-- All-zero statistics counters. -/
def zeroCtrs : Counters :=
  { viableCellsReplaced := 0, viableCellsKilled := 0, viableCellShares := 0,
    memSpecialReads := 0, memPrivateReads := 0, memOutputReads := 0,
    memInputReads := 0, memSpecialWrites := 0, memPrivateWrites := 0,
    memOutputWrites := 0, memInputWrites := 0 }

/-- A concrete PRNG stream for instances: every draw is 17 (low nibble 1). -/
def rng0 : Rng := ⟨fun _ => 17, 0⟩

/-- A concrete PRNG stream whose draws (all 2^32 - 1) never trigger the
mutation test. -/
def rngBig : Rng := ⟨fun _ => 4294967295, 0⟩

/-- A viable (generation 3), non-parentless target fixture with energy 4. -/
def cellT : Cell := { cellW with parentID := 1, generation := 3, energy := 4 }

/-- A two-cell pond fixture: `other` sits at (0, 3) — the neighbor faced by a
cell at (0, 0) with facing 0 on a 4x4 grid — and `self` everywhere else. -/
def mkPond (self other : Cell) : Pond :=
  fun a b => if a = 0 ∧ b = 3 then other else self

/-- The freshly reset VM state of one execution (source lines 1449-1463). -/
def vm0 : VMState :=
  ⟨EXEC_START_INST, 0, 0, 0, List.replicate POND_DEPTH 0, 0, 0, false,
   List.replicate POND_DEPTH OP_STOP⟩

/-- Concrete globals built on `rng0`. -/
def g0 : Globals := ⟨rng0, 0, zeroCtrs⟩

/-- Concrete globals built on `rngBig`. -/
def gBig : Globals := ⟨rngBig, 0, zeroCtrs⟩

/-- A cell fixture whose genome is all INC (opcode 3) with energy 5. -/
def cellG3 : Cell := { cellW with genome := List.replicate POND_DEPTH 3, energy := 5 }

/-- A viable parentless target fixture with energy 5. -/
def cellT0 : Cell := { cellW with generation := 3, energy := 5 }

/-- SHARE fixture: executor with energy 11 at (0,0) facing a neighbor with
energy 4 at (0,3). -/
def pondS : Pond := mkPond { cellW with energy := 11 } { cellW with energy := 4 }

/-- KILL-penalty fixture: attacker with energy 90 facing a viable,
non-parentless target. -/
def pondK : Pond := mkPond { cellW with energy := 90 } cellT

/-- Permitted-KILL fixture: attacker facing a viable parentless target. -/
def pondK9 : Pond := mkPond { cellW with energy := 90 } cellT0

/-- A uniform pond of `cellG3` cells. -/
def pondG : Pond := fun _ _ => cellG3

/-- A VM state one level deep in a taken-false LOOP. -/
def vmSkip : VMState := { vm0 with falseLoopDepth := 1 }

lemma getQ_pos {l : List Nat} {i : Nat} (h : i < l.length) :
    getQ l i = some (l.getD i 0) := by
  simp [getQ, h]

lemma setQ_pos {l : List Nat} {i : Nat} (v : Nat) (h : i < l.length) :
    setQ l i v = some (l.set i v) := by
  simp [setQ, h]

lemma updPond_self (p : Pond) (x y : Nat) (c : Cell) : updPond p x y c x y = c := by
  simp [updPond]

lemma updPond_other (p : Pond) (x y : Nat) (c : Cell) {a b : Nat}
    (h : ¬(a = x ∧ b = y)) : updPond p x y c a b = p a b := by
  simp only [updPond, if_neg h]

lemma PondWF_upd (p : Pond) (x y : Nat) (c : Cell) (hp : PondWF p) (hc : CellWF c) :
    PondWF (updPond p x y c) := by
  intro a b
  unfold updPond
  split_ifs
  · exact hc
  · exact hp a b

lemma getNeighbor_some (sx sy x y dir : Nat) (h : dir < 32) :
    ∃ q, getNeighbor sx sy x y dir = some q := by
  unfold getNeighbor
  rw [getQ_pos (show dir < dirmap.length by simp [dirmap]; omega)]
  by_cases hy : y % 2 = 1 <;> simp [hy]

lemma read_mem_some (sx sy : Nat) (pond : Pond) (x y ptr : Nat) (sc : Counters)
    (hwf : PondWF pond) :
    ∃ v sc', read_mem sx sy pond x y ptr sc = some (v, sc') := by
  obtain ⟨hg, hr, hf⟩ := hwf x y
  obtain ⟨⟨nx, ny⟩, hq⟩ := getNeighbor_some sx sy x y (pond x y).facing hf
  obtain ⟨hgn, hrn, hfn⟩ := hwf nx ny
  rcases Nat.lt_or_ge ptr 32 with h32 | h32
  · interval_cases ptr <;> simp [read_mem, getQ, hr, hrn, hq, RAM_SIZE]
  · refine ⟨0, sc, ?_⟩
    unfold read_mem
    iterate 11 rw [if_neg (by omega)]

lemma write_mem_some (sx sy : Nat) (pond : Pond) (x y ptr value : Nat)
    (sc : Counters) (r : Rng) (hwf : PondWF pond) :
    ∃ p' sc' r', write_mem sx sy pond x y ptr value sc r = some (p', sc', r') := by
  obtain ⟨hg, hr, hf⟩ := hwf x y
  obtain ⟨⟨nx, ny⟩, hq⟩ := getNeighbor_some sx sy x y (pond x y).facing hf
  obtain ⟨hgn, hrn, hfn⟩ := hwf nx ny
  rcases Nat.lt_or_ge ptr 32 with h32 | h32
  · by_cases hok : (accessAllowed (pond nx ny) (pond x y).logo 1 r).1 = true <;>
      (interval_cases ptr <;> simp [write_mem, setQ, hr, hrn, hq, hok, RAM_SIZE])
  · refine ⟨pond, sc, r, ?_⟩
    unfold write_mem
    iterate 6 rw [if_neg (by omega)]

set_option maxHeartbeats 3200000 in
lemma execInst_safe (sx sy inst : Nat) (pond : Pond) (x y : Nat) (vm : VMState)
    (g : Globals) (hwf : PondWF pond) (hreg : vm.reg < 256)
    (hio : vm.ptr_ioPtr < POND_DEPTH) (hip : vm.instPtr < POND_DEPTH)
    (hls : vm.loopStack.length = POND_DEPTH) (hlp : vm.loopStackPtr ≤ POND_DEPTH)
    (hob : vm.outputBuf.length = POND_DEPTH) :
    ∃ q, execInst sx sy inst pond x y vm g = some q ∧
      q.2.1.ptr_ioPtr < POND_DEPTH := by
  obtain ⟨hg, hr, hf⟩ := hwf x y
  obtain ⟨⟨nx, ny⟩, hq⟩ := getNeighbor_some sx sy x y (pond x y).facing hf
  obtain ⟨hgn, hrn, hfn⟩ := hwf nx ny
  obtain ⟨v1, sc1, hrm⟩ := read_mem_some sx sy pond x y vm.ptr_mem g.stats hwf
  obtain ⟨v2, sc2, hrm2⟩ := read_mem_some sx sy pond x y vm.ptr_mem sc1 hwf
  obtain ⟨p3, sc3, r3, hwm⟩ := write_mem_some sx sy pond x y vm.ptr_mem vm.reg g.stats g.rng hwf
  have hPD : POND_DEPTH = 512 := rfl
  have hE0 : EXEC_START_INST = 0 := rfl
  have cg : vm.ptr_ioPtr < (pond x y).genome.length := by omega
  have cgn : vm.ptr_ioPtr < (pond nx ny).genome.length := by omega
  have cb : vm.ptr_ioPtr < vm.outputBuf.length := by omega
  have hgq := getQ_pos cg
  have hgqn := getQ_pos cgn
  have hobq := getQ_pos cb
  have hsg := setQ_pos (vm.reg % 32) cg
  have hsb := setQ_pos (vm.reg % 32) cb
  rcases Nat.lt_or_ge inst 32 with h32 | h32
  · interval_cases inst
    · -- 0 STOP
      exact ⟨_, rfl, hio⟩
    · -- 1 FWD
      refine ⟨_, rfl, ?_⟩
      show (if vm.ptr_ioPtr + 1 ≥ POND_DEPTH then 0 else vm.ptr_ioPtr + 1) < POND_DEPTH
      split_ifs <;> omega
    · -- 2 BACK
      refine ⟨_, rfl, ?_⟩
      show (if vm.ptr_ioPtr ≠ 0 then vm.ptr_ioPtr - 1 else POND_DEPTH - 1) < POND_DEPTH
      split_ifs <;> omega
    · -- 3 INC
      exact ⟨_, rfl, hio⟩
    · -- 4 DEC
      exact ⟨_, rfl, hio⟩
    · -- 5 READG
      simp only [execInst, hgq]
      norm_num [hio]
    · -- 6 WRITEG
      simp only [execInst, hsg]
      norm_num [hio]
    · -- 7 READO
      simp only [execInst, hobq]
      norm_num [hio]
    · -- 8 WRITEO
      simp only [execInst, hsb]
      norm_num [hio]
    · -- 9 LOOP
      by_cases h0 : vm.reg = 0
      · simp only [execInst]
        norm_num [h0, hio]
      · by_cases hov : vm.loopStackPtr ≥ POND_DEPTH
        · simp only [execInst]
          norm_num [h0, hov, hio]
        · have hsl := setQ_pos vm.instPtr
            (show vm.loopStackPtr < vm.loopStack.length by omega)
          simp only [execInst, hsl]
          norm_num [h0, hov, hio]
    · -- 10 REP
      by_cases hsp : vm.loopStackPtr = 0
      · simp only [execInst]
        norm_num [hsp, hio]
      · by_cases h0 : vm.reg = 0
        · simp only [execInst]
          norm_num [hsp, h0, hio]
        · have hgl := getQ_pos
            (show vm.loopStackPtr - 1 < vm.loopStack.length by omega)
          simp only [execInst, hgl]
          norm_num [hsp, h0, hio]
    · -- 11 TURN
      by_cases hgen : (pond x y).generation > 2
      · by_cases hng : (pond nx ny).generation > 2
        · by_cases hok : (accessAllowed (pond nx ny) vm.reg COMBINE_SENSE g.rng).1 = true
          · by_cases hbit : Nat.testBit
                ((accessAllowed (pond nx ny) vm.reg COMBINE_SENSE g.rng).2.seq
                  (accessAllowed (pond nx ny) vm.reg COMBINE_SENSE g.rng).2.idx) 3
            · simp only [execInst, hq]
              norm_num [hgen, hng, hok, getRandom, hbit, hgq, hio]
            · simp only [execInst, hq]
              norm_num [hgen, hng, hok, getRandom, hbit, hgqn, hio]
          · simp only [execInst, hq]
            norm_num [hgen, hng, hok, hgq, hio]
        · simp only [execInst, hq]
          norm_num [hgen, hng, hgq, hio]
      · simp only [execInst]
        norm_num [hgen, hgq, hio]
    · -- 12 XCHG
      by_cases hwrap : vm.instPtr + 1 ≥ POND_DEPTH
      · have a1 := getQ_pos (show EXEC_START_INST < (pond x y).genome.length by omega)
        have a2 := setQ_pos (vm.reg % 32)
          (show EXEC_START_INST < (pond x y).genome.length by omega)
        simp only [execInst]
        norm_num [hwrap, a1, a2, hio]
      · have a1 := getQ_pos (show vm.instPtr + 1 < (pond x y).genome.length by omega)
        have a2 := setQ_pos (vm.reg % 32)
          (show vm.instPtr + 1 < (pond x y).genome.length by omega)
        simp only [execInst]
        norm_num [hwrap, a1, a2, hio]
    · -- 13 KILL
      by_cases hok : (accessAllowed (pond nx ny) vm.reg 0 g.rng).1 = true
      · simp only [execInst, hq]
        norm_num [hok, hio]
      · by_cases hng : (pond nx ny).generation > 2 <;>
          (simp only [execInst, hq]; norm_num [hok, hng, hio])
    · -- 14 SHARE
      by_cases hok : (accessAllowed (pond nx ny) vm.reg 1 g.rng).1 = true <;>
        (simp only [execInst, hq]; norm_num [hok, hio])
    · -- 15 ZERO
      exact ⟨_, rfl, hio⟩
    · -- 16 SETP
      refine ⟨_, rfl, ?_⟩
      show vm.reg < POND_DEPTH
      omega
    · -- 17 NEXTB
      exact ⟨_, rfl, hio⟩
    · -- 18 PREVB
      exact ⟨_, rfl, hio⟩
    · -- 19 NEXTM
      exact ⟨_, rfl, hio⟩
    · -- 20 PREVM
      exact ⟨_, rfl, hio⟩
    · -- 21 READM
      simp only [execInst, hrm]
      norm_num [hio]
    · -- 22 WRITEM
      simp only [execInst, hwm]
      norm_num [hio]
    · -- 23 CLEARM
      exact ⟨_, rfl, hio⟩
    · -- 24 ADD
      simp only [execInst, hrm]
      norm_num [hio]
    · -- 25 SUB
      simp only [execInst, hrm]
      norm_num [hio]
    · -- 26 MUL
      simp only [execInst, hrm]
      norm_num [hio]
    · -- 27 DIV
      by_cases hv : v1 = 0
      · simp only [execInst, hrm]
        norm_num [hv, hio]
      · simp only [execInst, hrm, hrm2]
        norm_num [hv, hio]
    · -- 28 SHL
      exact ⟨_, rfl, hio⟩
    · -- 29 SHR
      exact ⟨_, rfl, hio⟩
    · -- 30 SETMP
      exact ⟨_, rfl, hio⟩
    · -- 31 RAND
      exact ⟨_, rfl, hio⟩
  · refine ⟨(pond, vm, g, false), ?_, hio⟩
    unfold execInst
    iterate 32 rw [if_neg (by omega)]

lemma execTail_safe (sx sy : Nat) (pond1 : Pond) (x y inst : Nat) (vm1 : VMState)
    (g1 : Globals) (hwf1 : PondWF pond1) (hreg1 : vm1.reg < 256)
    (hio1 : vm1.ptr_ioPtr < POND_DEPTH) (hip1 : vm1.instPtr < POND_DEPTH)
    (hls1 : vm1.loopStack.length = POND_DEPTH) (hlp1 : vm1.loopStackPtr ≤ POND_DEPTH)
    (hob1 : vm1.outputBuf.length = POND_DEPTH) :
    ∃ r, execTail sx sy pond1 x y inst vm1 g1 = some r ∧
      r.2.1.ptr_ioPtr < POND_DEPTH := by
  by_cases hfl : vm1.falseLoopDepth = 0
  · obtain ⟨q, he, hioq⟩ := execInst_safe sx sy inst
      (updPond pond1 x y { pond1 x y with energy := (pond1 x y).energy - 1 }) x y vm1 g1
      (PondWF_upd _ _ _ _ hwf1 (hwf1 x y)) hreg1 hio1 hip1 hls1 hlp1 hob1
    obtain ⟨p3, vm3, g3, cont⟩ := q
    cases cont
    · refine ⟨(p3, { vm3 with instPtr := advanceIp vm3.instPtr }, g3), ?_, hioq⟩
      simp only [execTail]
      rw [if_neg (show ¬vm1.falseLoopDepth ≠ 0 by omega), he]
      rfl
    · refine ⟨(p3, vm3, g3), ?_, hioq⟩
      simp only [execTail]
      rw [if_neg (show ¬vm1.falseLoopDepth ≠ 0 by omega), he]
      rfl
  · refine ⟨(updPond pond1 x y { pond1 x y with energy := (pond1 x y).energy - 1 },
      { vm1 with
          falseLoopDepth := (if inst = 9 then vm1.falseLoopDepth + 1
            else if inst = 10 then vm1.falseLoopDepth - 1 else vm1.falseLoopDepth),
          instPtr := advanceIp vm1.instPtr }, g1), ?_, hio1⟩
    simp only [execTail]
    rw [if_pos hfl]

/-- C1: evaluated at the failing input for the id-uniqueness claim.  With the
counter at 0, a successful birth assigns id 1 (the source pre-increments:
`tmpptr->ID = ++cellIdCounter`), and the next seeding event assigns id 1
again (the source assigns and then post-increments), so two assignment
events hand out the same id, contradicting the claim (and the source's own
comment that the counter "is used to generate unique cell IDs"). -/
theorem C1_birth_then_seed_id_reuse :
    runIds [IdEvent.birth, IdEvent.seed] 0 = [1, 1] ∧
    ¬ (runIds [IdEvent.birth, IdEvent.seed] 0).Nodup := by
  decide

/-- C3 counterexample: on the 4x4 six-neighbor grid, cell (0,1) (an odd row)
with direction code DIR_5 yields neighbor (0,0) — offset (0,-1) per the
source's own TEST_NEIGHBOR table — not (3,0) as the claim states. -/
theorem C3_dir5_counterexample :
    getNeighbor 4 4 0 1 5 = some (0, 0) ∧ getNeighbor 4 4 0 1 5 ≠ some (3, 0) := by
  decide

/-- C3 amended: on the 4x4 six-neighbor grid, DIR_5 from (0,0) (even row)
wraps to (3,3), and DIR_5 from (0,1) (odd row) wraps to (0,0). -/
theorem C3_dir5_amended :
    getNeighbor 4 4 0 0 5 = some (3, 3) ∧ getNeighbor 4 4 0 1 5 = some (0, 0) := by
  decide

/-- C2 counterexample: a read of the read-only special slot 0x03 returns the
low lineage byte but increments none of the four read counters — in
particular not the special-reads counter, contradicting the claim ("every
read ... increments exactly one of the four access counters; in particular
reads of the read-only special slots 0x03..0x07 increment the special-reads
counter"). -/
theorem C2_read_counter_counterexample :
    read_mem 4 4 (fun _ _ => cellW) 0 0 3 zeroCtrs = some (7, zeroCtrs) ∧
    read_mem 4 4 (fun _ _ => cellW) 0 0 3 zeroCtrs ≠ some (7, bumpSR zeroCtrs) := by
  constructor
  · rfl
  · intro hsome
    have : zeroCtrs = bumpSR zeroCtrs := by
      have h1 : read_mem 4 4 (fun _ _ => cellW) 0 0 3 zeroCtrs = some (7, zeroCtrs) := rfl
      rw [h1] at hsome
      exact (Prod.mk.injEq _ _ _ _ ▸ Option.some.inj hsome).2
    simp [zeroCtrs, bumpSR] at this

/-- C2 amended: for every address in 0..31, every write increments exactly
one of the four write counters (special 0x00-0x07, private 0x08-0x0f, output
0x10-0x17, input 0x18-0x1f), and every read at 0x00-0x02 / 0x08-0x0f /
0x10-0x17 / 0x18-0x1f increments exactly the special / private / output /
input read counter — but reads of the read-only special slots 0x03..0x07
increment no counter at all. -/
theorem C2_mem_counter_amended (sx sy : Nat) (pond : Pond) (x y ptr value : Nat)
    (sc : Counters) (r : Rng) (hwf : PondWF pond) (hp : ptr < 32) :
    (∃ v, read_mem sx sy pond x y ptr sc = some (v, readBump ptr sc)) ∧
    (∃ p' r', write_mem sx sy pond x y ptr value sc r = some (p', writeBump ptr sc, r')) := by
  obtain ⟨hg, hr, hf⟩ := hwf x y
  obtain ⟨⟨nx, ny⟩, hq⟩ := getNeighbor_some sx sy x y (pond x y).facing hf
  obtain ⟨hgn, hrn, hfn⟩ := hwf nx ny
  by_cases hok : (accessAllowed (pond nx ny) (pond x y).logo 1 r).1 <;>
    refine ⟨?_, ?_⟩ <;>
    interval_cases ptr <;>
    simp [read_mem, write_mem, readBump, writeBump, getQ, setQ, hr, hrn, hq, hok, RAM_SIZE]

/-- C2 amended witness: at address 0x18 (the neighbor input band) on a
concrete well-formed pond, the read increments the input-reads counter and
the write increments the input-writes counter. -/
theorem C2_mem_counter_amended_witness :
    PondWF (fun _ _ => cellW) ∧ (0x18 : Nat) < 32 ∧
    ((∃ v, read_mem 4 4 (fun _ _ => cellW) 0 0 0x18 zeroCtrs =
        some (v, readBump 0x18 zeroCtrs)) ∧
     (∃ p' r', write_mem 4 4 (fun _ _ => cellW) 0 0 0x18 9 zeroCtrs rng0 =
        some (p', writeBump 0x18 zeroCtrs, r'))) :=
  have hwf : PondWF (fun _ _ => cellW) := fun _ _ =>
    ⟨by simp [cellW], by simp [cellW], by simp [cellW]⟩
  ⟨hwf, by norm_num,
   C2_mem_counter_amended 4 4 (fun _ _ => cellW) 0 0 0x18 9 zeroCtrs rng0 hwf (by norm_num)⟩

/-- C8: a READM of memory-window address 0x02 returns exactly the compressed
energy value 0 when the cell's energy is 0 and `min(31, 1 + (energy >> 12))`
otherwise, for every energy value, and increments the special-reads counter. -/
theorem C8_energy_compress (sx sy : Nat) (pond : Pond) (x y : Nat) (sc : Counters) :
    read_mem sx sy pond x y 2 sc =
      some (specCompressedEnergy (pond x y).energy, bumpSR sc) := by
  simp only [read_mem]
  norm_num
  simp only [specCompressedEnergy]
  split_ifs <;> omega

/-- C10: every call to the access oracle consumes exactly one random draw,
for both senses and regardless of outcome; and when the target's parentID is
0 the call returns allowed. -/
theorem C10_access_rng (c2 : Cell) (c1guess sense : Nat) (r : Rng) :
    (accessAllowed c2 c1guess sense r).2 = rngBump r ∧
    (c2.parentID = 0 → (accessAllowed c2 c1guess sense r).1 = true) := by
  unfold accessAllowed getRandom rngBump
  by_cases hs : sense ≠ 0 <;> simp [hs] <;> exact fun h => Or.inr h

/-- C10 witness: the oracle applied to a concrete parentless target with
sense 1 advances the PRNG cursor by one and returns allowed. -/
theorem C10_access_rng_witness :
    (accessAllowed cellW 5 1 ⟨fun _ => 7, 0⟩).2 = rngBump ⟨fun _ => 7, 0⟩ ∧
    (cellW.parentID = 0 →
      (accessAllowed cellW 5 1 ⟨fun _ => 7, 0⟩).1 = true) :=
  C10_access_rng cellW 5 1 ⟨fun _ => 7, 0⟩

/-- C4: whenever the SHARE access test succeeds, with dispatch-time energies
a (executor) and b (faced neighbor) and pot = a + b, the post-state satisfies
neighbor.energy = pot / 2, executor.energy = pot - pot / 2, and exact
conservation a' + b' = pot. -/
theorem C4_share_conservation (sx sy : Nat) (pond : Pond) (x y nx ny : Nat)
    (vm : VMState) (g : Globals)
    (hn : getNeighbor sx sy x y (pond x y).facing = some (nx, ny))
    (hne : ¬(x = nx ∧ y = ny))
    (hacc : (accessAllowed (pond nx ny) vm.reg 1 g.rng).1 = true)
    (hsum : (pond x y).energy + (pond nx ny).energy < UINTPTR_MOD) :
    ∃ p' g', execInst sx sy 14 pond x y vm g = some (p', vm, g', false) ∧
      (p' nx ny).energy = ((pond x y).energy + (pond nx ny).energy) / 2 ∧
      (p' x y).energy =
        ((pond x y).energy + (pond nx ny).energy) -
          ((pond x y).energy + (pond nx ny).energy) / 2 ∧
      (p' x y).energy + (p' nx ny).energy = (pond x y).energy + (pond nx ny).energy := by
  have hne' : ¬(nx = x ∧ ny = y) := fun hh => hne ⟨hh.1.symm, hh.2.symm⟩
  have htmp : ((pond x y).energy + (pond nx ny).energy) % UINTPTR_MOD
      = (pond x y).energy + (pond nx ny).energy := Nat.mod_eq_of_lt hsum
  simp only [execInst, hn]
  norm_num [hacc]
  refine ⟨?_, ?_, ?_⟩ <;> (simp [updPond, hne', htmp]; try omega)

/-- C4 witness: executor energy 11, neighbor energy 4, access allowed: the
neighbor ends with 7, the executor with 8, and the total 15 is preserved. -/
theorem C4_share_conservation_witness :
    getNeighbor 4 4 0 0 (pondS 0 0).facing = some (0, 3) ∧
    ¬((0 : Nat) = 0 ∧ (0 : Nat) = 3) ∧
    (accessAllowed (pondS 0 3) vm0.reg 1 g0.rng).1 = true ∧
    (pondS 0 0).energy + (pondS 0 3).energy < UINTPTR_MOD ∧
    (∃ p' g', execInst 4 4 14 pondS 0 0 vm0 g0 = some (p', vm0, g', false) ∧
      (p' 0 3).energy = ((pondS 0 0).energy + (pondS 0 3).energy) / 2 ∧
      (p' 0 0).energy =
        ((pondS 0 0).energy + (pondS 0 3).energy) -
          ((pondS 0 0).energy + (pondS 0 3).energy) / 2 ∧
      (p' 0 0).energy + (p' 0 3).energy = (pondS 0 0).energy + (pondS 0 3).energy) :=
  have h1 : getNeighbor 4 4 0 0 (pondS 0 0).facing = some (0, 3) := by decide
  have h2 : ¬((0 : Nat) = 0 ∧ (0 : Nat) = 3) := by decide
  have h3 : (accessAllowed (pondS 0 3) vm0.reg 1 g0.rng).1 = true := by decide
  have h4 : (pondS 0 0).energy + (pondS 0 3).energy < UINTPTR_MOD := by decide
  ⟨h1, h2, h3, h4, C4_share_conservation 4 4 pondS 0 0 0 3 vm0 g0 h1 h2 h3 h4⟩

/-- C5: a KILL whose access test is denied against a viable (generation > 2)
target costs the attacker `floor(energy / FAILED_KILL_PENALTY)` and leaves
the target completely unchanged; against a non-viable target a denied KILL
changes nothing at all (the one-unit instruction charge happens before
dispatch). -/
theorem C5_kill_penalty (sx sy : Nat) (pond : Pond) (x y nx ny : Nat)
    (vm : VMState) (g : Globals)
    (hn : getNeighbor sx sy x y (pond x y).facing = some (nx, ny))
    (hne : ¬(x = nx ∧ y = ny))
    (hacc : (accessAllowed (pond nx ny) vm.reg 0 g.rng).1 = false) :
    ((pond nx ny).generation > 2 →
      execInst sx sy 13 pond x y vm g =
        some (updPond pond x y
            { pond x y with energy :=
                (pond x y).energy - (pond x y).energy / FAILED_KILL_PENALTY },
          vm, { g with rng := (accessAllowed (pond nx ny) vm.reg 0 g.rng).2 }, false) ∧
      updPond pond x y
          { pond x y with energy :=
              (pond x y).energy - (pond x y).energy / FAILED_KILL_PENALTY } nx ny
        = pond nx ny) ∧
    ((pond nx ny).generation ≤ 2 →
      execInst sx sy 13 pond x y vm g =
        some (pond, vm, { g with rng := (accessAllowed (pond nx ny) vm.reg 0 g.rng).2 },
          false)) := by
  have hne' : ¬(nx = x ∧ ny = y) := fun hh => hne ⟨hh.1.symm, hh.2.symm⟩
  have hE : (if (pond x y).energy > (pond x y).energy / FAILED_KILL_PENALTY
        then (pond x y).energy - (pond x y).energy / FAILED_KILL_PENALTY else 0)
      = (pond x y).energy - (pond x y).energy / FAILED_KILL_PENALTY := by
    simp only [FAILED_KILL_PENALTY]
    split_ifs <;> omega
  constructor
  · intro hgen
    refine ⟨?_, updPond_other _ _ _ _ hne'⟩
    simp only [execInst, hn]
    norm_num [hacc, hgen, hE]
  · intro hgen
    have hgen' : ¬(2 < (pond nx ny).generation) := Nat.not_lt.mpr hgen
    simp only [execInst, hn]
    norm_num [hacc, hgen']

/-- C5 witness: attacker with dispatch-time energy 90, viable target, denied
access test (identical logos, random nibble 1), penalty divisor 3: the
attacker drops to 90 - 30 = 60 and the target cell is untouched. -/
theorem C5_kill_penalty_witness :
    getNeighbor 4 4 0 0 (pondK 0 0).facing = some (0, 3) ∧
    ¬((0 : Nat) = 0 ∧ (0 : Nat) = 3) ∧
    (accessAllowed (pondK 0 3) vm0.reg 0 g0.rng).1 = false ∧
    (((pondK 0 3).generation > 2 →
      execInst 4 4 13 pondK 0 0 vm0 g0 =
        some (updPond pondK 0 0
            { pondK 0 0 with energy :=
                (pondK 0 0).energy - (pondK 0 0).energy / FAILED_KILL_PENALTY },
          vm0, { g0 with rng := (accessAllowed (pondK 0 3) vm0.reg 0 g0.rng).2 }, false) ∧
      updPond pondK 0 0
          { pondK 0 0 with energy :=
              (pondK 0 0).energy - (pondK 0 0).energy / FAILED_KILL_PENALTY } 0 3
        = pondK 0 3) ∧
    ((pondK 0 3).generation ≤ 2 →
      execInst 4 4 13 pondK 0 0 vm0 g0 =
        some (pondK, vm0, { g0 with rng := (accessAllowed (pondK 0 3) vm0.reg 0 g0.rng).2 },
          false))) :=
  have h1 : getNeighbor 4 4 0 0 (pondK 0 0).facing = some (0, 3) := by decide
  have h2 : ¬((0 : Nat) = 0 ∧ (0 : Nat) = 3) := by decide
  have h3 : (accessAllowed (pondK 0 3) vm0.reg 0 g0.rng).1 = false := by decide
  ⟨h1, h2, h3, C5_kill_penalty 4 4 pondK 0 0 0 3 vm0 g0 h1 h2 h3⟩

/-- C9: a permitted KILL leaves the target cell's energy and RAM unchanged,
resets only its genome (all codons to STOP), ID, parentID, lineage,
generation, logo and facing, leaves the attacker untouched (beyond the
instruction charge outside dispatch), and increments the id counter. -/
theorem C9_kill_frame (sx sy : Nat) (pond : Pond) (x y nx ny : Nat)
    (vm : VMState) (g : Globals)
    (hn : getNeighbor sx sy x y (pond x y).facing = some (nx, ny))
    (hne : ¬(x = nx ∧ y = ny))
    (hacc : (accessAllowed (pond nx ny) vm.reg 0 g.rng).1 = true) :
    ∃ g' : Globals,
      execInst sx sy 13 pond x y vm g =
        some (updPond pond nx ny (killReset (pond nx ny) g.cellIdCounter), vm, g', false) ∧
      g'.cellIdCounter = g.cellIdCounter + 1 ∧
      g'.rng = (accessAllowed (pond nx ny) vm.reg 0 g.rng).2 ∧
      updPond pond nx ny (killReset (pond nx ny) g.cellIdCounter) x y = pond x y ∧
      (killReset (pond nx ny) g.cellIdCounter).energy = (pond nx ny).energy ∧
      (killReset (pond nx ny) g.cellIdCounter).ram = (pond nx ny).ram := by
  simp only [execInst, hn]
  norm_num [hacc]
  exact ⟨updPond_other _ _ _ _ hne, rfl, rfl⟩

/-- C9 witness: a permitted KILL on a concrete viable parentless target with
energy 5 resets exactly the identity fields and genome, keeping energy and
RAM. -/
theorem C9_kill_frame_witness :
    getNeighbor 4 4 0 0 (pondK9 0 0).facing = some (0, 3) ∧
    ¬((0 : Nat) = 0 ∧ (0 : Nat) = 3) ∧
    (accessAllowed (pondK9 0 3) vm0.reg 0 g0.rng).1 = true ∧
    (∃ g' : Globals,
      execInst 4 4 13 pondK9 0 0 vm0 g0 =
        some (updPond pondK9 0 3 (killReset (pondK9 0 3) g0.cellIdCounter), vm0, g', false) ∧
      g'.cellIdCounter = g0.cellIdCounter + 1 ∧
      g'.rng = (accessAllowed (pondK9 0 3) vm0.reg 0 g0.rng).2 ∧
      updPond pondK9 0 3 (killReset (pondK9 0 3) g0.cellIdCounter) 0 0 = pondK9 0 0 ∧
      (killReset (pondK9 0 3) g0.cellIdCounter).energy = (pondK9 0 3).energy ∧
      (killReset (pondK9 0 3) g0.cellIdCounter).ram = (pondK9 0 3).ram) :=
  have h1 : getNeighbor 4 4 0 0 (pondK9 0 0).facing = some (0, 3) := by decide
  have h2 : ¬((0 : Nat) = 0 ∧ (0 : Nat) = 3) := by decide
  have h3 : (accessAllowed (pondK9 0 3) vm0.reg 0 g0.rng).1 = true := by decide
  ⟨h1, h2, h3, C9_kill_frame 4 4 pondK9 0 0 0 3 vm0 g0 h1 h2 h3⟩

/-- C6: with the mutation draw not firing, (i) in skip mode (falseLoopDepth
nonzero) any instruction other than LOOP and REP changes nothing but the
energy debit (and the instruction-pointer advance and the PRNG draw);
(ii) LOOP deepens the skip by one; (iii) REP pops it, execution falling
through to the next slot; (iv) in normal mode, executing LOOP with reg = 0
enters skip mode: falseLoopDepth becomes 1 and nothing else changes beyond
the energy debit and the advance; and (v) in normal mode, REP with a
non-empty loop stack and nonzero register sets the instruction pointer to
the pushed LOOP slot itself, skipping the advance, so the LOOP is
re-evaluated. -/
theorem C6_loop_rep (sx sy : Nat) (pond : Pond) (x y : Nat) (vm : VMState)
    (g : Globals) (inst0 : Nat)
    (hfetch : getQ (pond x y).genome vm.instPtr = some inst0)
    (hnomut : ¬(g.rng.seq g.rng.idx % 4294967296 < MUTATION_RATE))
    (henergy : (pond x y).energy ≠ 0) :
    (vm.falseLoopDepth ≠ 0 → inst0 ≠ 9 → inst0 ≠ 10 →
      execStep sx sy pond x y vm g =
        some (updPond pond x y { pond x y with energy := (pond x y).energy - 1 },
          { vm with instPtr := advanceIp vm.instPtr }, { g with rng := rngBump g.rng })) ∧
    (vm.falseLoopDepth ≠ 0 → inst0 = 9 →
      execStep sx sy pond x y vm g =
        some (updPond pond x y { pond x y with energy := (pond x y).energy - 1 },
          { vm with falseLoopDepth := vm.falseLoopDepth + 1,
                    instPtr := advanceIp vm.instPtr }, { g with rng := rngBump g.rng })) ∧
    (vm.falseLoopDepth ≠ 0 → inst0 = 10 →
      execStep sx sy pond x y vm g =
        some (updPond pond x y { pond x y with energy := (pond x y).energy - 1 },
          { vm with falseLoopDepth := vm.falseLoopDepth - 1,
                    instPtr := advanceIp vm.instPtr }, { g with rng := rngBump g.rng })) ∧
    (vm.falseLoopDepth = 0 → inst0 = 9 → vm.reg = 0 →
      execStep sx sy pond x y vm g =
        some (updPond pond x y { pond x y with energy := (pond x y).energy - 1 },
          { vm with falseLoopDepth := 1, instPtr := advanceIp vm.instPtr },
          { g with rng := rngBump g.rng })) ∧
    (vm.falseLoopDepth = 0 → inst0 = 10 → vm.loopStackPtr ≠ 0 → vm.reg ≠ 0 →
      vm.loopStackPtr - 1 < vm.loopStack.length →
      execStep sx sy pond x y vm g =
        some (updPond pond x y { pond x y with energy := (pond x y).energy - 1 },
          { vm with loopStackPtr := vm.loopStackPtr - 1,
                    instPtr := vm.loopStack.getD (vm.loopStackPtr - 1) 0 },
          { g with rng := rngBump g.rng })) := by
  refine ⟨fun hskip h9 h10 => ?_, fun hskip h9 => ?_, fun hskip h10 => ?_,
    fun hz h9 hr0 => ?_, fun hz h10 hsp hreg hlen => ?_⟩
  · simp [execStep, execTail, hfetch, getRandom, hnomut, hskip, h9, h10, rngBump]
  · subst h9
    simp [execStep, execTail, hfetch, getRandom, hnomut, hskip, rngBump]
  · subst h10
    simp [execStep, execTail, hfetch, getRandom, hnomut, hskip, rngBump]
  · subst h9
    simp [execStep, execTail, execInst, hfetch, getRandom, hnomut, hz, hr0, rngBump]
  · subst h10
    simp [execStep, execTail, execInst, hfetch, getRandom, hnomut, hz, hsp, hreg,
          getQ_pos hlen, rngBump]

set_option maxRecDepth 4096 in
/-- C6 witness: a concrete skip-mode state (falseLoopDepth 1) over a genome
of INC instructions, with a draw that does not fire the mutation test. -/
theorem C6_loop_rep_witness :
    getQ (pondG 0 0).genome vmSkip.instPtr = some 3 ∧
    ¬(gBig.rng.seq gBig.rng.idx % 4294967296 < MUTATION_RATE) ∧
    (pondG 0 0).energy ≠ 0 ∧
    ((vmSkip.falseLoopDepth ≠ 0 → (3 : Nat) ≠ 9 → (3 : Nat) ≠ 10 →
      execStep 4 4 pondG 0 0 vmSkip gBig =
        some (updPond pondG 0 0 { pondG 0 0 with energy := (pondG 0 0).energy - 1 },
          { vmSkip with instPtr := advanceIp vmSkip.instPtr },
          { gBig with rng := rngBump gBig.rng })) ∧
    (vmSkip.falseLoopDepth ≠ 0 → (3 : Nat) = 9 →
      execStep 4 4 pondG 0 0 vmSkip gBig =
        some (updPond pondG 0 0 { pondG 0 0 with energy := (pondG 0 0).energy - 1 },
          { vmSkip with falseLoopDepth := vmSkip.falseLoopDepth + 1,
                        instPtr := advanceIp vmSkip.instPtr },
          { gBig with rng := rngBump gBig.rng })) ∧
    (vmSkip.falseLoopDepth ≠ 0 → (3 : Nat) = 10 →
      execStep 4 4 pondG 0 0 vmSkip gBig =
        some (updPond pondG 0 0 { pondG 0 0 with energy := (pondG 0 0).energy - 1 },
          { vmSkip with falseLoopDepth := vmSkip.falseLoopDepth - 1,
                        instPtr := advanceIp vmSkip.instPtr },
          { gBig with rng := rngBump gBig.rng })) ∧
    (vmSkip.falseLoopDepth = 0 → (3 : Nat) = 9 → vmSkip.reg = 0 →
      execStep 4 4 pondG 0 0 vmSkip gBig =
        some (updPond pondG 0 0 { pondG 0 0 with energy := (pondG 0 0).energy - 1 },
          { vmSkip with falseLoopDepth := 1, instPtr := advanceIp vmSkip.instPtr },
          { gBig with rng := rngBump gBig.rng })) ∧
    (vmSkip.falseLoopDepth = 0 → (3 : Nat) = 10 → vmSkip.loopStackPtr ≠ 0 →
      vmSkip.reg ≠ 0 → vmSkip.loopStackPtr - 1 < vmSkip.loopStack.length →
      execStep 4 4 pondG 0 0 vmSkip gBig =
        some (updPond pondG 0 0 { pondG 0 0 with energy := (pondG 0 0).energy - 1 },
          { vmSkip with loopStackPtr := vmSkip.loopStackPtr - 1,
                        instPtr := vmSkip.loopStack.getD (vmSkip.loopStackPtr - 1) 0 },
          { gBig with rng := rngBump gBig.rng }))) :=
  have h1 : getQ (pondG 0 0).genome vmSkip.instPtr = some 3 := by decide
  have h2 : ¬(gBig.rng.seq gBig.rng.idx % 4294967296 < MUTATION_RATE) := by decide
  have h3 : (pondG 0 0).energy ≠ 0 := by decide
  ⟨h1, h2, h3, C6_loop_rep 4 4 pondG 0 0 vmSkip gBig 3 h1 h2 h3⟩

/-- C7: from every representable VM state (8-bit reg, io pointer below the
genome depth, instruction pointer below the depth, loop-stack pointer at most
the depth) over a well-formed pond, one full loop iteration — fetch, mutation
injection, energy debit and dispatch of whatever instruction was fetched or
mutated in — completes without any out-of-bounds array access (the checked
accesses all succeed), and in particular the io pointer (which SETP sets to
the unmasked 8-bit reg) stays below the depth 512. -/
theorem C7_dispatch_safe (sx sy : Nat) (pond : Pond) (x y : Nat) (vm : VMState)
    (g : Globals) (hwf : PondWF pond) (hreg : vm.reg < 256)
    (hio : vm.ptr_ioPtr < POND_DEPTH) (hip : vm.instPtr < POND_DEPTH)
    (hls : vm.loopStack.length = POND_DEPTH) (hlp : vm.loopStackPtr ≤ POND_DEPTH)
    (hob : vm.outputBuf.length = POND_DEPTH) (henergy : (pond x y).energy ≠ 0) :
    ∃ r, execStep sx sy pond x y vm g = some r ∧
      r.2.1.ptr_ioPtr < POND_DEPTH := by
  have hg := (hwf x y).1
  have hr := (hwf x y).2.1
  have hPD : POND_DEPTH = 512 := rfl
  have hRS : RAM_SIZE = 16 := rfl
  have hfq := getQ_pos (show vm.instPtr < (pond x y).genome.length by omega)
  by_cases hmut : g.rng.seq g.rng.idx % 4294967296 < MUTATION_RATE
  · by_cases hb17 : Nat.testBit (g.rng.seq (g.rng.idx + 1)) 17 = true <;>
      by_cases hb16 : Nat.testBit (g.rng.seq (g.rng.idx + 1)) 16 = true
    · obtain ⟨r, hstep, hior⟩ := execTail_safe sx sy pond x y
        (g.rng.seq (g.rng.idx + 1) % 32) vm
        { g with rng := ⟨g.rng.seq, g.rng.idx + 1 + 1⟩ } hwf hreg hio hip hls hlp hob
      refine ⟨r, ?_, hior⟩
      simp only [execStep, hfq, getRandom]
      norm_num [hmut, hb17, hb16]
      simpa using hstep
    · obtain ⟨r, hstep, hior⟩ := execTail_safe sx sy pond x y
        ((pond x y).genome.getD vm.instPtr 0)
        { vm with reg := g.rng.seq (g.rng.idx + 1) % 256 }
        { g with rng := ⟨g.rng.seq, g.rng.idx + 1 + 1⟩ } hwf
        (Nat.mod_lt _ (by norm_num)) hio hip hls hlp hob
      refine ⟨r, ?_, hior⟩
      simp only [execStep, hfq, getRandom]
      norm_num [hmut, hb17, hb16]
      simpa using hstep
    · obtain ⟨r, hstep, hior⟩ := execTail_safe sx sy pond x y
        ((pond x y).genome.getD vm.instPtr 0)
        { vm with ptr_mem := g.rng.seq (g.rng.idx + 1) % 32 }
        { g with rng := ⟨g.rng.seq, g.rng.idx + 1 + 1⟩ } hwf hreg hio hip hls hlp hob
      refine ⟨r, ?_, hior⟩
      simp only [execStep, hfq, getRandom]
      norm_num [hmut, hb17, hb16]
      simpa using hstep
    · have hsr := setQ_pos (g.rng.seq (g.rng.idx + 1) % 256)
        (show g.rng.seq (g.rng.idx + 1) / 256 % 16 < (pond x y).ram.length by omega)
      obtain ⟨r, hstep, hior⟩ := execTail_safe sx sy
        (updPond pond x y
          { pond x y with ram := ((pond x y).ram.set
              (g.rng.seq (g.rng.idx + 1) / 256 % 16) (g.rng.seq (g.rng.idx + 1) % 256)) })
        x y ((pond x y).genome.getD vm.instPtr 0) vm
        { g with rng := ⟨g.rng.seq, g.rng.idx + 1 + 1⟩ }
        (PondWF_upd _ _ _ _ hwf ⟨hg, by rw [List.length_set]; omega, (hwf x y).2.2⟩)
        hreg hio hip hls hlp hob
      refine ⟨r, ?_, hior⟩
      simp only [execStep, hfq, getRandom, hsr]
      norm_num [hmut, hb17, hb16]
      simpa using hstep
  · obtain ⟨r, hstep, hior⟩ := execTail_safe sx sy pond x y
      ((pond x y).genome.getD vm.instPtr 0) vm
      { g with rng := ⟨g.rng.seq, g.rng.idx + 1⟩ } hwf hreg hio hip hls hlp hob
    refine ⟨r, ?_, hior⟩
    simp only [execStep, hfq, getRandom]
    norm_num [hmut]
    simpa using hstep

/-- C7 witness: a concrete well-formed pond and freshly reset VM state. -/
theorem C7_dispatch_safe_witness :
    PondWF pondG ∧ vm0.reg < 256 ∧ vm0.ptr_ioPtr < POND_DEPTH ∧
    vm0.instPtr < POND_DEPTH ∧ vm0.loopStack.length = POND_DEPTH ∧
    vm0.loopStackPtr ≤ POND_DEPTH ∧ vm0.outputBuf.length = POND_DEPTH ∧
    (pondG 0 0).energy ≠ 0 ∧
    (∃ r, execStep 4 4 pondG 0 0 vm0 gBig = some r ∧
      r.2.1.ptr_ioPtr < POND_DEPTH) :=
  have hwfc : PondWF pondG := fun _ _ =>
    ⟨by simp [pondG, cellG3, cellW], by simp [pondG, cellG3, cellW],
     by simp [pondG, cellG3, cellW]⟩
  have h1 : vm0.reg < 256 := by norm_num [vm0]
  have h2 : vm0.ptr_ioPtr < POND_DEPTH := by norm_num [vm0, POND_DEPTH]
  have h3 : vm0.instPtr < POND_DEPTH := by norm_num [vm0, POND_DEPTH, EXEC_START_INST]
  have h4 : vm0.loopStack.length = POND_DEPTH := by simp [vm0]
  have h5 : vm0.loopStackPtr ≤ POND_DEPTH := by norm_num [vm0]
  have h6 : vm0.outputBuf.length = POND_DEPTH := by simp [vm0]
  have h7 : (pondG 0 0).energy ≠ 0 := by norm_num [pondG, cellG3, cellW]
  ⟨hwfc, h1, h2, h3, h4, h5, h6, h7,
   C7_dispatch_safe 4 4 pondG 0 0 vm0 gBig hwfc h1 h2 h3 h4 h5 h6 h7⟩

end Nanopond
